import Mathlib

/-!
Shallow embedding of the TileDB C API shim (src/core/src/c_api/tiledb.cc) and of
the executor interface (src/core/include/executor.h), together with proofs about
the behaviour of the embedded operations.

Modelling conventions:
* C pointers that may be null are modelled as `Option`; a C struct is a Lean
  structure whose fields keep the source names (trailing underscore included).
* The engine classes (`tiledb::StorageManager`, `tiledb::Array`, ...) are not
  part of the two source files; where a shim function calls into the engine, the
  engine's result is passed in as an explicit `Status` (or function) parameter,
  and engine behaviour needed by a claim is modelled from the spec, marked
  `Modelled from the spec:` in the doc comment.
* Machine integers returned by the API are modelled as `Int`; raw buffers and
  other opaque pointer values are modelled as `Nat` (the pointer value).
-/

namespace TileDB

/-- Return code `TILEDB_OK` (tiledb_constants.h, not under src/: 0 = ok). -/
def TILEDB_OK : Int := 0

/-- Return code `TILEDB_ERR` (tiledb_constants.h: 1-style generic error, value -1). -/
def TILEDB_ERR : Int := -1

/-- Return code `TILEDB_OOM` (tiledb_constants.h: out of memory, value -2). -/
def TILEDB_OOM : Int := -2

/-- Modelled from the spec: `tiledb::Status` (class not under src/) carries an
ok/error flag and a message; `ok()` tests the flag and `to_string()` yields the
stored message ("last-error message accessible via context"). -/
structure Status where
  ok : Bool
  message : String
deriving DecidableEq, Repr

/-- `tiledb::Status::Ok()`. -/
def Status.Ok : Status := ⟨true, ""⟩

/-- `tiledb::Status::Error(msg)`. -/
def Status.Error (msg : String) : Status := ⟨false, msg⟩

/-- `struct tiledb_ctx_t` (tiledb.cc:136-141): `storage_manager_` is an engine
pointer, modelled here only by its non-nullness; `last_error_` is the stored
last error. -/
structure Ctx where
  storage_manager_ : Bool
  last_error_ : Option Status
deriving DecidableEq, Repr

/-- `save_error` (tiledb.cc:143-156): on an ok status return false and leave the
context untouched; otherwise replace the stored last error by the new status and
return true. -/
def save_error (ctx : Ctx) (st : Status) : Bool × Ctx :=
  if st.ok then (false, ctx)
  else (true, { ctx with last_error_ := some st })

/-- `sanity_check(tiledb_ctx_t*)` (tiledb.cc:158-163). -/
def sanity_check_ctx (ctx : Option Ctx) : Status :=
  match ctx with
  | none => Status.Error "Invalid TileDB context"
  | some c =>
    if c.storage_manager_ then Status.Ok else Status.Error "Invalid TileDB context"

/-- The dispatch pattern shared by every context-level C API operation
(e.g. `tiledb_group_create`, tiledb.cc:237-247): run the engine operation,
`if (save_error(ctx, st)) return TILEDB_ERR; return TILEDB_OK;`.
The engine operation's status is the parameter `st`. -/
def ctx_dispatch (ctx : Ctx) (st : Status) : Int × Ctx :=
  if (save_error ctx st).1 then (TILEDB_ERR, (save_error ctx st).2)
  else (TILEDB_OK, (save_error ctx st).2)

/-- `tiledb_error_last` (tiledb.cc:208-214): null for a null context or when no
error has been stored; otherwise a copy of the stored error.  (The unchecked
`malloc` of the error struct is modelled as succeeding.) -/
def tiledb_error_last (ctx : Option Ctx) : Option Status :=
  match ctx with
  | none => none
  | some c => c.last_error_

/-- `tiledb_error_message` (tiledb.cc:216-221): empty string for a null error
object or an ok status, otherwise the stored status rendered as a string. -/
def tiledb_error_message (err : Option Status) : String :=
  match err with
  | none => ""
  | some st => if st.ok then "" else st.message

/-- `tiledb_error_free` (tiledb.cc:223-231).  The second component records
whether anything was actually deallocated. -/
def tiledb_error_free (err : Option Status) : Int × Bool :=
  match err with
  | none => (TILEDB_OK, false)
  | some _ => (TILEDB_OK, true)

/-- `struct tiledb_config_t` (tiledb.cc:53-56): `config_` is an engine pointer,
modelled by its non-nullness. -/
structure Config where
  config_ : Bool
deriving DecidableEq, Repr

/-- `tiledb_config_free` (tiledb.cc:75-89). -/
def tiledb_config_free (config : Option Config) : Int × Bool :=
  match config with
  | none => (TILEDB_OK, false)
  | some _ => (TILEDB_OK, true)

/-- `tiledb_ctx_init` (tiledb.cc:165-183).  `allocOk` models whether the
`malloc` of the context struct succeeds; `engineSt` is the result of
`StorageManager::init`. -/
def tiledb_ctx_init (allocOk : Bool) (engineSt : Status) : Int × Option Ctx :=
  if !allocOk then (TILEDB_OOM, none)
  else
    if (save_error ⟨true, none⟩ engineSt).1 then
      (TILEDB_ERR, some (save_error ⟨true, none⟩ engineSt).2)
    else (TILEDB_OK, some (save_error ⟨true, none⟩ engineSt).2)

/-- `tiledb_ctx_finalize` (tiledb.cc:185-201): a null context is accepted and
yields `TILEDB_OK`; otherwise the storage manager (when present) is finalized
with result `engineSt`.  The second component records whether the engine
finalization ran. -/
def tiledb_ctx_finalize (ctx : Option Ctx) (engineSt : Status) : Int × Bool :=
  match ctx with
  | none => (TILEDB_OK, false)
  | some c =>
    if c.storage_manager_ then
      ((if engineSt.ok then TILEDB_OK else TILEDB_ERR), true)
    else (TILEDB_OK, false)

/-- Modelled from the spec: the read-path state of an open `tiledb::Array`
(class not under src/).  `result` is the merged result cell stream of the
current subarray query in cell order (cells abstracted to opaque ids),
`cursor` is the internal resumption cursor ("per-fragment tile-id + in-tile
cell index + heap state" collapsed to the number of cells already emitted),
and `overflow_` holds the per-attribute overflow flags of the last read
(spec 4.5, 7). -/
structure ReadState where
  result : List Nat
  cursor : Nat
  overflow_ : List Bool
deriving DecidableEq, Repr

/-- Minimum of a list of per-attribute buffer capacities (0 for the empty
list, which does not arise: an array has at least one attribute buffer). -/
def minList : List Nat → Nat
  | [] => 0
  | [c] => c
  | c :: rest => min c (minList rest)

/-- Modelled from the spec: `Array::read` backpressure (spec 4.5): the
iterator emits cells into the caller buffers until some per-attribute buffer
would be exceeded by the next cell, sets the overflow flag of each attribute
whose buffer was exceeded, stops, and returns an ok status — overflow "is
stored but not treated as a failure" (spec 7).  `caps` is the per-attribute
buffer capacity in cells; since all fixed-size attribute buffers receive one
value per cell, the number of cells emitted is the minimum capacity, bounded
by the number of cells remaining. -/
def array_read_core (rs : ReadState) (caps : List Nat) : Status × List Nat × ReadState :=
  (Status.Ok,
   (rs.result.drop rs.cursor).take (min (rs.result.length - rs.cursor) (minList caps)),
   { rs with
     cursor := rs.cursor + min (rs.result.length - rs.cursor) (minList caps),
     overflow_ := caps.map (fun cap =>
       decide (min (rs.result.length - rs.cursor) (minList caps) <
                 rs.result.length - rs.cursor) &&
       (cap == min (rs.result.length - rs.cursor) (minList caps))) })

/-- Modelled from the spec: the engine-side `tiledb::Array` object, as far as
the shim observes it — its current mode (`Array::mode()`) and its read-path
state. -/
structure ArrayObj where
  mode_ : Int
  readState : ReadState
deriving DecidableEq, Repr

/-- `struct tiledb_array_t` (tiledb.cc:275-278). -/
structure ArrayHandle where
  array_ : Option ArrayObj
  ctx_ : Option Ctx
deriving DecidableEq, Repr

/-- `sanity_check(const tiledb_array_t*)` (tiledb.cc:280-286). -/
def sanity_check_array (h : Option ArrayHandle) : Status :=
  match h with
  | some ⟨some _, some _⟩ => Status.Ok
  | _ => Status.Error "Invalid TileDB array"

/-- `tiledb_array_write` (tiledb.cc:626-642).  `engineSt` is the result of
`Array::write` (engine code not under src/; its effect on the fragment being
built is not observed by the shim).  Returns (code, engine invoked, handle
after the call). -/
def tiledb_array_write (h : Option ArrayHandle) (engineSt : Status) :
    Int × Bool × Option ArrayHandle :=
  match h with
  | some ⟨some arr, some c⟩ =>
    ((if (save_error c engineSt).1 then TILEDB_ERR else TILEDB_OK), true,
     some ⟨some arr, some (save_error c engineSt).2⟩)
  | _ => (TILEDB_ERR, false, h)

/-- `tiledb_array_read` (tiledb.cc:644-658), with `Array::read` given by
`array_read_core`.  Returns (code, engine invoked, handle after the call,
cells emitted into the caller buffers). -/
def tiledb_array_read (h : Option ArrayHandle) (caps : List Nat) :
    Int × Bool × Option ArrayHandle × List Nat :=
  match h with
  | some ⟨some arr, some c⟩ =>
    ((if (save_error c (array_read_core arr.readState caps).1).1 then TILEDB_ERR
      else TILEDB_OK),
     true,
     some ⟨some { arr with readState := (array_read_core arr.readState caps).2.2 },
           some (save_error c (array_read_core arr.readState caps).1).2⟩,
     (array_read_core arr.readState caps).2.1)
  | _ => (TILEDB_ERR, false, h, [])

/-- `tiledb_array_overflow` (tiledb.cc:660-671): `(int)Array::overflow(id)`,
where the engine call (modelled from the spec) reads the per-attribute
overflow flag stored by the last read.  Returns (code, engine invoked). -/
def tiledb_array_overflow (h : Option ArrayHandle) (attribute_id : Nat) : Int × Bool :=
  match h with
  | some ⟨some arr, some _⟩ =>
    ((if arr.readState.overflow_.getD attribute_id false then 1 else 0), true)
  | _ => (TILEDB_ERR, false)

/-- `tiledb_array_sync` (tiledb.cc:705-721); `engineSt` is the result of
`StorageManager::array_sync`. -/
def tiledb_array_sync (h : Option ArrayHandle) (engineSt : Status) :
    Int × Bool × Option ArrayHandle :=
  match h with
  | some ⟨some arr, some c⟩ =>
    ((if (save_error c engineSt).1 then TILEDB_ERR else TILEDB_OK), true,
     some ⟨some arr, some (save_error c engineSt).2⟩)
  | _ => (TILEDB_ERR, false, h)

/-- `tiledb_array_sync_attribute` (tiledb.cc:723-740); `attribute` is the
attribute name forwarded to the engine, `engineSt` the engine result. -/
def tiledb_array_sync_attribute (h : Option ArrayHandle) (_attributeName : String)
    (engineSt : Status) : Int × Bool × Option ArrayHandle :=
  match h with
  | some ⟨some arr, some c⟩ =>
    ((if (save_error c engineSt).1 then TILEDB_ERR else TILEDB_OK), true,
     some ⟨some arr, some (save_error c engineSt).2⟩)
  | _ => (TILEDB_ERR, false, h)

/-- `tiledb_array_finalize` (tiledb.cc:683-703): after a passing sanity check
the handle struct is freed on both engine outcomes (modelled as `none`). -/
def tiledb_array_finalize (h : Option ArrayHandle) (engineSt : Status) :
    Int × Bool × Option ArrayHandle :=
  match h with
  | some ⟨some _, some c⟩ =>
    ((if (save_error c engineSt).1 then TILEDB_ERR else TILEDB_OK), true, none)
  | _ => (TILEDB_ERR, false, h)

/-- `tiledb_array_reset_subarray` (tiledb.cc:477-488); the raw subarray
pointer argument is abstracted into the engine result `engineSt`. -/
def tiledb_array_reset_subarray (h : Option ArrayHandle) (engineSt : Status) :
    Int × Bool × Option ArrayHandle :=
  match h with
  | some ⟨some arr, some c⟩ =>
    ((if (save_error c engineSt).1 then TILEDB_ERR else TILEDB_OK), true,
     some ⟨some arr, some (save_error c engineSt).2⟩)
  | _ => (TILEDB_ERR, false, h)

/-- `tiledb_array_reset_attributes` (tiledb.cc:490-506); the attribute list
arguments are abstracted into the engine result `engineSt`. -/
def tiledb_array_reset_attributes (h : Option ArrayHandle) (engineSt : Status) :
    Int × Bool × Option ArrayHandle :=
  match h with
  | some ⟨some arr, some c⟩ =>
    ((if (save_error c engineSt).1 then TILEDB_ERR else TILEDB_OK), true,
     some ⟨some arr, some (save_error c engineSt).2⟩)
  | _ => (TILEDB_ERR, false, h)

/-- `tiledb_array_get_schema` (tiledb.cc:508-535): after a passing sanity
check the schema is exported (engine code) and `TILEDB_OK` returned; no
`save_error` is involved.  Returns (code, engine export invoked). -/
def tiledb_array_get_schema (h : Option ArrayHandle) : Int × Bool :=
  match h with
  | some ⟨some _, some _⟩ => (TILEDB_OK, true)
  | _ => (TILEDB_ERR, false)

/-- Outcome of a handle-creating call whose allocation may fail in a way the
code mishandles: either an ordinary return code, or an undefined write through
the null allocation. -/
inductive InitOutcome where
  | ret (code : Int)
  | nullDeref
deriving DecidableEq, Repr

/-- `tiledb_array_init` (tiledb.cc:441-475).  `allocOk` models the `malloc` of
the handle struct.  The source tests `tiledb_array == nullptr` — the out
pointer, which the caller passed non-null — instead of `*tiledb_array`, so on
allocation failure the `TILEDB_OOM` branch is dead and the next statement
`(*tiledb_array)->ctx_ = ctx` writes through the null allocation
(`InitOutcome.nullDeref`). -/
def tiledb_array_init (ctx : Option Ctx) (allocOk : Bool) (engineSt : Status) :
    InitOutcome :=
  if !(sanity_check_ctx ctx).ok then .ret TILEDB_ERR
  else if !allocOk then .nullDeref
  else .ret (if engineSt.ok then TILEDB_OK else TILEDB_ERR)

/-- `tiledb_array_iterator_init` (tiledb.cc:755-791): allocation failure of
the iterator struct returns `TILEDB_OOM`; an engine failure frees the struct
and returns `TILEDB_ERR`. -/
def tiledb_array_iterator_init (ctx : Option Ctx) (allocOk : Bool)
    (engineSt : Status) : Int :=
  if !(sanity_check_ctx ctx).ok then TILEDB_ERR
  else if !allocOk then TILEDB_OOM
  else if engineSt.ok then TILEDB_OK else TILEDB_ERR

/-- `tiledb_metadata_init` (tiledb.cc:986-1019): allocation failure of the
metadata struct returns `TILEDB_OOM`. -/
def tiledb_metadata_init (ctx : Option Ctx) (allocOk : Bool)
    (engineSt : Status) : Int :=
  if !(sanity_check_ctx ctx).ok then TILEDB_ERR
  else if !allocOk then TILEDB_OOM
  else if engineSt.ok then TILEDB_OK else TILEDB_ERR

/-- `tiledb_metadata_iterator_init` (tiledb.cc:1218-1252): allocation failure
of the iterator struct returns `TILEDB_ERR` in the source (line 1233), unlike
the `TILEDB_OOM` of its sibling functions. -/
def tiledb_metadata_iterator_init (ctx : Option Ctx) (allocOk : Bool)
    (engineSt : Status) : Int :=
  if !(sanity_check_ctx ctx).ok then TILEDB_ERR
  else if !allocOk then TILEDB_ERR
  else if engineSt.ok then TILEDB_OK else TILEDB_ERR

/-- `struct tiledb_array_schema_t` as populated by `tiledb_array_set_schema`:
pointer fields are `Option`, strings and arrays hold the copied values. -/
structure tiledb_array_schema_t where
  array_name_ : String
  attributes_ : List String
  attribute_num_ : Nat
  dimensions_ : List String
  dim_num_ : Nat
  dense_ : Int
  domain_ : List Nat
  tile_extents_ : Option (List Nat)
  types_ : List Int
  cell_val_num_ : Option (List Int)
  cell_order_ : Int
  tile_order_ : Int
  capacity_ : Int
  compressor_ : Option (List Int)
deriving DecidableEq, Repr

/-- `tiledb_array_set_schema` (tiledb.cc:294-410).  Deep copies of caller
arguments: the name, `attribute_num` attribute names, `dim_num` dimension
names, `domain_len` domain bytes (modelled as the byte list `domain`),
the tile extents when non-null, `attribute_num+1` types, `attribute_num`
cell-val-nums when non-null, and `attribute_num+1` compressors when non-null.
`schemaPresent` models the non-nullness of the schema out-struct; `allocOk`
collapses the individual `malloc` results into one up-front success flag
(on failure the source returns `TILEDB_OOM` with a partially filled struct;
the claims below concern successful calls only).  Returns
(code, context after the call, populated struct). -/
def tiledb_array_set_schema (ctx : Option Ctx) (schemaPresent : Bool)
    (allocOk : Bool) (array_name : String) (attributes : List String)
    (attribute_num : Nat) (capacity : Int) (cell_order : Int)
    (cell_val_num : Option (List Int)) (compression : Option (List Int))
    (dense : Int) (dimensions : List String) (dim_num : Nat)
    (domain : List Nat) (tile_extents : Option (List Nat)) (tile_order : Int)
    (types : List Int) : Int × Option Ctx × Option tiledb_array_schema_t :=
  match ctx with
  | none => (TILEDB_ERR, none, none)
  | some c =>
    if !c.storage_manager_ then (TILEDB_ERR, some c, none)
    else if !schemaPresent then
      (TILEDB_ERR,
       some { c with last_error_ := some (Status.Error "Invalid TileDB array schema") },
       none)
    else if !allocOk then (TILEDB_OOM, some c, none)
    else
      (TILEDB_OK, some c, some {
        array_name_ := array_name,
        attributes_ := (List.range attribute_num).map (fun i => attributes.getD i ""),
        attribute_num_ := attribute_num,
        dimensions_ := (List.range dim_num).map (fun i => dimensions.getD i ""),
        dim_num_ := dim_num,
        dense_ := dense,
        domain_ := domain,
        tile_extents_ := tile_extents,
        types_ := (List.range (attribute_num + 1)).map (fun i => types.getD i 0),
        cell_val_num_ :=
          cell_val_num.map (fun l => (List.range attribute_num).map (fun i => l.getD i 0)),
        cell_order_ := cell_order,
        tile_order_ := tile_order,
        capacity_ := capacity,
        compressor_ :=
          compression.map (fun l =>
            (List.range (attribute_num + 1)).map (fun i => l.getD i 0)) })

/-- `tiledb_array_free_schema` (tiledb.cc:578-624): a null struct is accepted
and yields `TILEDB_OK`.  The second component records whether anything was
deallocated. -/
def tiledb_array_free_schema (s : Option tiledb_array_schema_t) : Int × Bool :=
  match s with
  | none => (TILEDB_OK, false)
  | some _ => (TILEDB_OK, true)

/-- `struct tiledb_metadata_schema_t` as populated by
`tiledb_metadata_set_schema` (tiledb.cc:887-959). -/
structure tiledb_metadata_schema_t where
  metadata_name_ : String
  attributes_ : List String
  attribute_num_ : Nat
  types_ : List Int
  cell_val_num_ : Option (List Int)
  capacity_ : Int
  compressor_ : Option (List Int)
deriving DecidableEq, Repr

/-- `tiledb_metadata_free_schema` (tiledb.cc:1100-1130): a null struct is
accepted and yields `TILEDB_OK`. -/
def tiledb_metadata_free_schema (s : Option tiledb_metadata_schema_t) : Int × Bool :=
  match s with
  | none => (TILEDB_OK, false)
  | some _ => (TILEDB_OK, true)

/-- Modelled from the spec: the five object kinds of
`StorageManager::dir_type(path)` — "returns one of {WORKSPACE, GROUP, ARRAY,
METADATA, NONE}" (spec 4.8). -/
inductive DirType where
  | workspace
  | group
  | array
  | metadata
  | none
deriving DecidableEq, Repr

/-- Result of `tiledb_dir_type`: the `TILEDB_ERR` return for a null context,
an object kind from the engine, or the undefined dereference of a null
`storage_manager_`. -/
inductive DirTypeResult where
  | err
  | kind (k : DirType)
  | nullDeref
deriving DecidableEq, Repr

/-- `tiledb_dir_type` (tiledb.cc:1324-1328): a null context returns
`TILEDB_ERR`; otherwise the call forwards to `StorageManager::dir_type`
(modelled from the spec as the total function `engine`) — with no
`sanity_check`, so a null `storage_manager_` is dereferenced. -/
def tiledb_dir_type (ctx : Option Ctx) (engine : String → DirType)
    (dir : String) : DirTypeResult :=
  match ctx with
  | Option.none => .err
  | some c => if c.storage_manager_ then .kind (engine dir) else .nullDeref

/-- Outcome of a directory-level shim call: an ordinary return (code and
context after the call), or the shim forwarding a null directory pointer into
the engine unvalidated. -/
inductive DirOpOutcome where
  | ret (code : Int) (ctx : Option Ctx)
  | engineGotNull
deriving DecidableEq, Repr

/-- `tiledb_clear` (tiledb.cc:1330-1345): after the context sanity check, a
null `dir` records an error in the context and returns `TILEDB_ERR` before the
engine is reached; otherwise `StorageManager::clear` runs (modelled from the
spec as `engine`, which validates that the target is a recognized TileDB
object before acting). -/
def tiledb_clear (ctx : Option Ctx) (dir : Option String)
    (engine : String → Status) : DirOpOutcome :=
  match ctx with
  | Option.none => .ret TILEDB_ERR ctx
  | some c =>
    if c.storage_manager_ then
      match dir with
      | Option.none =>
        .ret TILEDB_ERR
          (some { c with
            last_error_ := some (Status.Error "Invalid directory argument is NULL") })
      | some d =>
        if (save_error c (engine d)).1 then
          .ret TILEDB_ERR (some (save_error c (engine d)).2)
        else .ret TILEDB_OK (some (save_error c (engine d)).2)
    else .ret TILEDB_ERR ctx

/-- `tiledb_delete` (tiledb.cc:1347-1355): no null check on `dir` (the
source's `tiledb_clear` carries the comment "TODO: do this everywhere"); a
null `dir` is forwarded straight into `StorageManager::delete_entire`. -/
def tiledb_delete (ctx : Option Ctx) (dir : Option String)
    (engine : String → Status) : DirOpOutcome :=
  match ctx with
  | Option.none => .ret TILEDB_ERR ctx
  | some c =>
    if c.storage_manager_ then
      match dir with
      | Option.none => .engineGotNull
      | some d =>
        if (save_error c (engine d)).1 then
          .ret TILEDB_ERR (some (save_error c (engine d)).2)
        else .ret TILEDB_OK (some (save_error c (engine d)).2)
    else .ret TILEDB_ERR ctx

/-- `tiledb_move` (tiledb.cc:1357-1365): no null check on either directory
argument; a null pointer is forwarded straight into `StorageManager::move`. -/
def tiledb_move (ctx : Option Ctx) (old_dir new_dir : Option String)
    (engine : String → String → Status) : DirOpOutcome :=
  match ctx with
  | Option.none => .ret TILEDB_ERR ctx
  | some c =>
    if c.storage_manager_ then
      match old_dir, new_dir with
      | some od, some nd =>
        if (save_error c (engine od nd)).1 then
          .ret TILEDB_ERR (some (save_error c (engine od nd)).2)
        else .ret TILEDB_OK (some (save_error c (engine od nd)).2)
      | _, _ => .engineGotNull
    else .ret TILEDB_ERR ctx

/-- `tiledb_ls` (tiledb.cc:1367-1382): no null check on `parent_dir`; the
output buffers and `*dir_num` are filled by the engine and abstracted into the
engine result. -/
def tiledb_ls (ctx : Option Ctx) (parent_dir : Option String)
    (engine : String → Status) : DirOpOutcome :=
  match ctx with
  | Option.none => .ret TILEDB_ERR ctx
  | some c =>
    if c.storage_manager_ then
      match parent_dir with
      | Option.none => .engineGotNull
      | some d =>
        if (save_error c (engine d)).1 then
          .ret TILEDB_ERR (some (save_error c (engine d)).2)
        else .ret TILEDB_OK (some (save_error c (engine d)).2)
    else .ret TILEDB_ERR ctx

/-- `TileDB_AIO_Request` — the caller-owned request struct of the public
header (not under src/), with the fields the shim reads (tiledb.cc:1398-1452).
`addr` models the numeric value of the C pointer to this struct; the other
opaque pointers (`buffers_`, `subarray_`, ...) are likewise modelled by their
pointer values. -/
structure TileDB_AIO_Request where
  addr : Nat
  buffers_ : Nat
  buffer_sizes_ : Nat
  status_ : Int
  subarray_ : Nat
  completion_handle_ : Nat
  completion_data_ : Nat
deriving DecidableEq, Repr

/-- `tiledb::AIO_Request` — the internal request struct (aio_request.h, not
under src/), with the fields the shim writes.  `status_` holds the pointer
value `&(tiledb_aio_request->status_)`, i.e. the address of the caller
request. -/
structure AIO_Request where
  id_ : Nat
  buffers_ : Nat
  buffer_sizes_ : Nat
  mode_ : Int
  status_ : Nat
  subarray_ : Nat
  completion_handle_ : Nat
  completion_data_ : Nat
deriving DecidableEq, Repr

/-- `tiledb_array_aio_read` (tiledb.cc:1398-1424): builds the internal request
from the caller request and the array's mode and hands it to
`Array::aio_read` (engine result `engineSt`).  Returns (code, the request
handed to the engine, handle after the call). -/
def tiledb_array_aio_read (h : Option ArrayHandle) (r : TileDB_AIO_Request)
    (engineSt : Status) : Int × Option AIO_Request × Option ArrayHandle :=
  match h with
  | some ⟨some arr, some c⟩ =>
    ((if (save_error c engineSt).1 then TILEDB_ERR else TILEDB_OK),
     some { id_ := r.addr, buffers_ := r.buffers_, buffer_sizes_ := r.buffer_sizes_,
            mode_ := arr.mode_, status_ := r.addr, subarray_ := r.subarray_,
            completion_handle_ := r.completion_handle_,
            completion_data_ := r.completion_data_ },
     some ⟨some arr, some (save_error c engineSt).2⟩)
  | _ => (TILEDB_ERR, none, h)

/-- `tiledb_array_aio_write` (tiledb.cc:1426-1452): identical construction,
handed to `Array::aio_write`. -/
def tiledb_array_aio_write (h : Option ArrayHandle) (r : TileDB_AIO_Request)
    (engineSt : Status) : Int × Option AIO_Request × Option ArrayHandle :=
  match h with
  | some ⟨some arr, some c⟩ =>
    ((if (save_error c engineSt).1 then TILEDB_ERR else TILEDB_OK),
     some { id_ := r.addr, buffers_ := r.buffers_, buffer_sizes_ := r.buffer_sizes_,
            mode_ := arr.mode_, status_ := r.addr, subarray_ := r.subarray_,
            completion_handle_ := r.completion_handle_,
            completion_data_ := r.completion_data_ },
     some ⟨some arr, some (save_error c engineSt).2⟩)
  | _ => (TILEDB_ERR, none, h)

/-- Modelled from the spec: the executor-layer `ArraySchema`
(executor.h includes it; the class itself is not under src/), with the fields
`join_compatible` inspects plus the name and attribute names needed for the
join result schema. -/
structure ArraySchemaX where
  array_name : String
  dim_names : List String
  domain : List (Int × Int)
  tile_extents : Option (List Int)
  cell_order : Int
  attribute_names : List String
deriving DecidableEq, Repr

/-- Modelled from the spec: `ArraySchema::join_compatible` — "same dimensions,
same domain, same tile extents, same cell order" (spec 4.1). -/
def ArraySchemaX.join_compatible (a b : ArraySchemaX) : Bool :=
  a.dim_names == b.dim_names && a.domain == b.domain &&
  a.tile_extents == b.tile_extents && a.cell_order == b.cell_order

/-- Modelled from the spec: `ArraySchema::create_join_result_schema` — the
result array carries the requested name and the attributes of both inputs
(executor.h:81-90). -/
def create_join_result_schema (a b : ArraySchemaX) (result_array_name : String) :
    ArraySchemaX :=
  { a with array_name := result_array_name,
           attribute_names := a.attribute_names ++ b.attribute_names }

/-- Modelled from the spec: `Executor::join` (executor.h:88-90) — "The input
arrays must be join-compatible (see ArraySchema::join_compatible)"; on a
violating pair the executor raises `ExecutorException` (modelled as
`Except.error` carrying the message) and creates no result array. -/
def Executor.join (array_schema_A array_schema_B : ArraySchemaX)
    (result_array_name : String) : Except String ArraySchemaX :=
  if array_schema_A.join_compatible array_schema_B then
    Except.ok (create_join_result_schema array_schema_A array_schema_B result_array_name)
  else Except.error "input arrays are not join-compatible"

/- ********************  Helper lemmas and fixtures  ******************** -/

/-- Indexing a mapped list with a default: below the length, `getD` commutes
with `map`. -/
theorem getD_map_bool (l : List Nat) (f : Nat → Bool) (i : Nat)
    (hi : i < l.length) : (l.map f).getD i false = f (l.getD i 0) := by
  induction l generalizing i with
  | nil => simp at hi
  | cons a t ih =>
    cases i with
    | zero => rfl
    | succ j => exact ih j (by simpa using hi)

/-- Copying a list element by element through `getD` over its index range
reproduces the list. -/
theorem range_map_getD {α : Type} (l : List α) (d : α) :
    (List.range l.length).map (fun i => l.getD i d) = l := by
  induction l with
  | nil => rfl
  | cons a t ih =>
    rw [List.length_cons, List.range_succ_eq_map, List.map_cons, List.map_map]
    refine congrArg (a :: ·) ?_
    have hfun : ((fun i => (a :: t).getD i d) ∘ Nat.succ) = fun i => t.getD i d := by
      funext i
      rfl
    rw [hfun, ih]

/-- A live context with no stored error, used as a concrete fixture. -/
def ctx0 : Ctx := { storage_manager_ := true, last_error_ := none }

/-- A concrete open array: mode 0, three result cells pending, cursor at the
start, no overflow flags yet. -/
def arr0 : ArrayObj :=
  { mode_ := 0, readState := { result := [10, 11, 12], cursor := 0, overflow_ := [] } }

/- ********************  Claim theorems  ******************** -/

/-- C1: an operation dispatched through a context returns `TILEDB_ERR` and
replaces the stored last error exactly when the engine status is a failure,
and leaves the stored error unchanged on success; `tiledb_error_last` is null
exactly for a null context or no stored error and otherwise retrieves the
stored error; `tiledb_error_message` is empty for a null error object or an ok
status and otherwise yields the stored error's message. -/
theorem ctx_error_propagation_and_retrieval :
    (∀ (c : Ctx) (st : Status), st.ok = false →
        ctx_dispatch c st = (TILEDB_ERR, { c with last_error_ := some st })) ∧
    (∀ (c : Ctx) (st : Status), st.ok = true → ctx_dispatch c st = (TILEDB_OK, c)) ∧
    (∀ ctx : Option Ctx, tiledb_error_last ctx = none ↔
        ctx = none ∨ ∃ c, ctx = some c ∧ c.last_error_ = none) ∧
    (∀ (c : Ctx) (st : Status), c.last_error_ = some st →
        tiledb_error_last (some c) = some st) ∧
    (tiledb_error_message none = "") ∧
    (∀ st : Status, st.ok = true → tiledb_error_message (some st) = "") ∧
    (∀ st : Status, st.ok = false → tiledb_error_message (some st) = st.message) := by
  refine ⟨?_, ?_, ?_, ?_, rfl, ?_, ?_⟩
  · intro c st h
    simp [ctx_dispatch, save_error, h, TILEDB_ERR]
  · intro c st h
    simp [ctx_dispatch, save_error, h, TILEDB_OK]
  · intro ctx
    cases ctx with
    | none => simp [tiledb_error_last]
    | some c =>
      cases h : c.last_error_ with
      | none => simp [tiledb_error_last, h]
      | some st => simp [tiledb_error_last, h]
  · intro c st h
    simp [tiledb_error_last, h]
  · intro st h
    simp [tiledb_error_message, h]
  · intro st h
    simp [tiledb_error_message, h]

/-- C1 witness: dispatching a failing operation through a fresh context yields
`TILEDB_ERR` and stores that very status. -/
theorem ctx_error_propagation_witness :
    ctx_dispatch ctx0 (Status.Error "boom") =
      (TILEDB_ERR, { ctx0 with last_error_ := some (Status.Error "boom") }) :=
  ctx_error_propagation_and_retrieval.1 ctx0 (Status.Error "boom") rfl

/-- C9: every deallocation-style call accepts a null pointer, returns
`TILEDB_OK`, and deallocates nothing. -/
theorem free_ops_accept_null :
    (∀ st : Status, tiledb_ctx_finalize none st = (TILEDB_OK, false)) ∧
    tiledb_config_free none = (TILEDB_OK, false) ∧
    tiledb_error_free none = (TILEDB_OK, false) ∧
    tiledb_array_free_schema none = (TILEDB_OK, false) ∧
    tiledb_metadata_free_schema none = (TILEDB_OK, false) :=
  ⟨fun _ => rfl, rfl, rfl, rfl, rfl⟩

/-- C4: evaluation of the handle-creating calls under allocation failure.
`tiledb_ctx_init`, `tiledb_array_iterator_init` and `tiledb_metadata_init`
return `TILEDB_OOM`; `tiledb_metadata_iterator_init` returns `TILEDB_ERR`
instead, and `tiledb_array_init` (whose null test inspects the out pointer
rather than the allocation) writes through the null allocation. -/
theorem init_alloc_failure_codes :
    tiledb_ctx_init false Status.Ok = (TILEDB_OOM, none) ∧
    tiledb_array_iterator_init (some ctx0) false Status.Ok = TILEDB_OOM ∧
    tiledb_metadata_init (some ctx0) false Status.Ok = TILEDB_OOM ∧
    tiledb_metadata_iterator_init (some ctx0) false Status.Ok = TILEDB_ERR ∧
    TILEDB_ERR ≠ TILEDB_OOM ∧
    tiledb_array_init (some ctx0) false Status.Ok = InitOutcome.nullDeref := by
  refine ⟨rfl, rfl, rfl, rfl, ?_, rfl⟩
  decide

/-- C6: null-directory handling of the four directory-level operations:
`tiledb_clear` rejects a null directory with `TILEDB_ERR` and records the
error in the context before the engine is reached, while `tiledb_delete`,
`tiledb_move` and `tiledb_ls` forward the null pointer into the engine with no
validation and no recorded error. -/
theorem dir_ops_null_dir_handling :
    tiledb_clear (some ctx0) none (fun _ => Status.Ok) =
      DirOpOutcome.ret TILEDB_ERR
        (some { ctx0 with
          last_error_ := some (Status.Error "Invalid directory argument is NULL") }) ∧
    tiledb_delete (some ctx0) none (fun _ => Status.Ok) =
      DirOpOutcome.engineGotNull ∧
    tiledb_move (some ctx0) none (some "d") (fun _ _ => Status.Ok) =
      DirOpOutcome.engineGotNull ∧
    tiledb_ls (some ctx0) none (fun _ => Status.Ok) =
      DirOpOutcome.engineGotNull :=
  ⟨rfl, rfl, rfl, rfl⟩

/-- C3 counterexample: with a null context, `tiledb_dir_type` returns
`TILEDB_ERR`, which is none of the five object kinds. -/
theorem dir_type_null_ctx_counterexample :
    tiledb_dir_type none (fun _ => DirType.none) "w" = DirTypeResult.err ∧
    DirTypeResult.err ≠ DirTypeResult.kind DirType.workspace ∧
    DirTypeResult.err ≠ DirTypeResult.kind DirType.group ∧
    DirTypeResult.err ≠ DirTypeResult.kind DirType.array ∧
    DirTypeResult.err ≠ DirTypeResult.kind DirType.metadata ∧
    DirTypeResult.err ≠ DirTypeResult.kind DirType.none := by
  refine ⟨rfl, ?_, ?_, ?_, ?_, ?_⟩ <;> decide

/-- C3 (amended): for a non-null context with a live storage manager,
`tiledb_dir_type` returns one of the five object kinds for every path; a null
context yields `TILEDB_ERR`. -/
theorem dir_type_returns_object_kind (c : Ctx) (engine : String → DirType)
    (dir : String) (hsm : c.storage_manager_ = true) :
    (∃ k : DirType, tiledb_dir_type (some c) engine dir = DirTypeResult.kind k) ∧
    tiledb_dir_type none engine dir = DirTypeResult.err := by
  constructor
  · exact ⟨engine dir, by simp [tiledb_dir_type, hsm]⟩
  · rfl

/-- C3 witness: a concrete live context and path. -/
theorem dir_type_returns_object_kind_witness :
    ∃ k : DirType,
      tiledb_dir_type (some ctx0) (fun _ => DirType.group) "g" = DirTypeResult.kind k :=
  (dir_type_returns_object_kind ctx0 (fun _ => DirType.group) "g" rfl).1

/-- C7: `Executor::join` fails (raises, producing no result array) on every
pair of schemas that is not join-compatible, and conversely only produces a
result array when the inputs are join-compatible. -/
theorem join_requires_join_compatible (a b : ArraySchemaX) (n : String) :
    (a.join_compatible b = false →
      Executor.join a b n = Except.error "input arrays are not join-compatible") ∧
    (∀ r : ArraySchemaX, Executor.join a b n = Except.ok r →
      a.join_compatible b = true) := by
  constructor
  · intro h
    simp [Executor.join, h]
  · intro r h
    by_contra hc
    rw [Executor.join, if_neg (by simpa using hc)] at h
    exact Except.noConfusion h

/-- C7 witness: two schemas differing only in cell order are rejected by the
join with no result array. -/
theorem join_requires_join_compatible_witness :
    Executor.join
      { array_name := "A", dim_names := ["x"], domain := [(0, 3)],
        tile_extents := none, cell_order := 0, attribute_names := ["a"] }
      { array_name := "B", dim_names := ["x"], domain := [(0, 3)],
        tile_extents := none, cell_order := 1, attribute_names := ["b"] }
      "R" = Except.error "input arrays are not join-compatible" :=
  (join_requires_join_compatible
      { array_name := "A", dim_names := ["x"], domain := [(0, 3)],
        tile_extents := none, cell_order := 0, attribute_names := ["a"] }
      { array_name := "B", dim_names := ["x"], domain := [(0, 3)],
        tile_extents := none, cell_order := 1, attribute_names := ["b"] }
      "R").1 (by decide)

/-- C5: for every AIO submission on a valid array handle, the internal request
handed to the engine carries exactly the caller request's buffers, buffer
sizes, subarray, completion handle and completion data, a status field
aliasing the caller request's status (it holds the address of the caller
request), the array handle's current mode, and an id identifying the caller's
request (the same address). -/
theorem aio_request_translation (arr : ArrayObj) (c : Ctx)
    (r : TileDB_AIO_Request) (engineSt : Status) :
    (tiledb_array_aio_read (some ⟨some arr, some c⟩) r engineSt).2.1 =
      some { id_ := r.addr, buffers_ := r.buffers_,
             buffer_sizes_ := r.buffer_sizes_, mode_ := arr.mode_,
             status_ := r.addr, subarray_ := r.subarray_,
             completion_handle_ := r.completion_handle_,
             completion_data_ := r.completion_data_ } ∧
    (tiledb_array_aio_write (some ⟨some arr, some c⟩) r engineSt).2.1 =
      some { id_ := r.addr, buffers_ := r.buffers_,
             buffer_sizes_ := r.buffer_sizes_, mode_ := arr.mode_,
             status_ := r.addr, subarray_ := r.subarray_,
             completion_handle_ := r.completion_handle_,
             completion_data_ := r.completion_data_ } :=
  ⟨rfl, rfl⟩

/-- C8: every array-level operation on a handle that is null, or whose array
pointer is null, or whose context pointer is null, returns `TILEDB_ERR`
without invoking the engine operation, leaving the handle (and hence array
and filesystem state) unchanged. -/
theorem array_ops_reject_invalid_handle (h : Option ArrayHandle) (st : Status)
    (caps : List Nat) (i : Nat) (a : String)
    (hbad : h = none ∨ ∃ hh, h = some hh ∧ (hh.array_ = none ∨ hh.ctx_ = none)) :
    tiledb_array_write h st = (TILEDB_ERR, false, h) ∧
    tiledb_array_read h caps = (TILEDB_ERR, false, h, []) ∧
    tiledb_array_overflow h i = (TILEDB_ERR, false) ∧
    tiledb_array_sync h st = (TILEDB_ERR, false, h) ∧
    tiledb_array_sync_attribute h a st = (TILEDB_ERR, false, h) ∧
    tiledb_array_finalize h st = (TILEDB_ERR, false, h) ∧
    tiledb_array_reset_subarray h st = (TILEDB_ERR, false, h) ∧
    tiledb_array_reset_attributes h st = (TILEDB_ERR, false, h) ∧
    tiledb_array_get_schema h = (TILEDB_ERR, false) := by
  rcases hbad with rfl | ⟨hh, rfl, hcase⟩
  · exact ⟨rfl, rfl, rfl, rfl, rfl, rfl, rfl, rfl, rfl⟩
  · rcases hh with ⟨a1, a2⟩
    rcases hcase with h1 | h2
    · obtain rfl : a1 = none := h1
      cases a2 <;> exact ⟨rfl, rfl, rfl, rfl, rfl, rfl, rfl, rfl, rfl⟩
    · obtain rfl : a2 = none := h2
      cases a1 <;> exact ⟨rfl, rfl, rfl, rfl, rfl, rfl, rfl, rfl, rfl⟩

/-- C8 witness: a null handle is rejected by the write path with no engine
invocation. -/
theorem array_ops_reject_invalid_handle_witness :
    tiledb_array_write none Status.Ok = (TILEDB_ERR, false, none) :=
  (array_ops_reject_invalid_handle none Status.Ok [] 0 "" (Or.inl rfl)).1

/-- C2: on a valid read-mode handle whose per-attribute buffers cannot hold
all remaining result cells, `tiledb_array_read` still returns `TILEDB_OK`;
afterwards `tiledb_array_overflow` reports 1 for every attribute whose buffer
was exceeded (its capacity is the minimum, which the read filled while cells
remained); and a subsequent `tiledb_array_read` on the same handle resumes
where the previous read stopped: the two emissions concatenate to a single
prefix of the pending result stream. -/
theorem array_read_overflow_ok_and_resumes
    (arr : ArrayObj) (c : Ctx) (caps caps2 : List Nat) (i : Nat)
    (hcap : minList caps < arr.readState.result.length - arr.readState.cursor) :
    (tiledb_array_read (some ⟨some arr, some c⟩) caps).1 = TILEDB_OK ∧
    (i < caps.length → caps.getD i 0 = minList caps →
      (tiledb_array_overflow
          (tiledb_array_read (some ⟨some arr, some c⟩) caps).2.2.1 i).1 = 1) ∧
    (tiledb_array_read (some ⟨some arr, some c⟩) caps).2.2.2 ++
        (tiledb_array_read
            ((tiledb_array_read (some ⟨some arr, some c⟩) caps).2.2.1) caps2).2.2.2 =
      (arr.readState.result.drop arr.readState.cursor).take
        (minList caps +
          min (arr.readState.result.length - (arr.readState.cursor + minList caps))
              (minList caps2)) := by
  rcases arr with ⟨md, ⟨res, cur, ov⟩⟩
  have hk : min (res.length - cur) (minList caps) = minList caps :=
    Nat.min_eq_right (le_of_lt hcap)
  refine ⟨rfl, ?_, ?_⟩
  · intro hi hci
    show (if ((caps.map fun cap =>
          decide (min (res.length - cur) (minList caps) < res.length - cur) &&
          (cap == min (res.length - cur) (minList caps))).getD i false)
        then (1 : Int) else 0) = 1
    rw [getD_map_bool _ _ _ hi, hci, hk]
    simp [hcap]
  · show (res.drop cur).take (min (res.length - cur) (minList caps)) ++
        (res.drop (cur + min (res.length - cur) (minList caps))).take
          (min (res.length - (cur + min (res.length - cur) (minList caps)))
            (minList caps2)) =
      (res.drop cur).take
        (minList caps + min (res.length - (cur + minList caps)) (minList caps2))
    rw [hk, List.take_add, List.drop_drop]

/-- C2 witness: three pending cells, attribute 0's buffer holds two cells:
after the first read, attribute 0 reports overflow. -/
theorem array_read_overflow_witness :
    (tiledb_array_overflow
        (tiledb_array_read (some ⟨some arr0, some ctx0⟩) [2, 5]).2.2.1 0).1 = 1 :=
  (array_read_overflow_ok_and_resumes arr0 ctx0 [2, 5] [5, 5] 0
    (by decide)).2.1 (by decide) (by decide)

/-- C10: a successful `tiledb_array_set_schema` populates the schema struct
with deep copies equal to the arguments: name, attribute names, dimension
names, dense flag, domain bytes, cell order, tile order and capacity equal the
inputs; types and compressor hold `attribute_num + 1` entries copied from the
inputs; and each of tile extents, cell-val-num and compressor is null in the
struct exactly when the corresponding input was null (they equal the input
`Option`s). -/
theorem set_schema_copies_inputs (c : Ctx) (array_name : String)
    (attributes : List String) (capacity : Int) (cell_order : Int)
    (cell_val_num : Option (List Int)) (compression : Option (List Int))
    (dense : Int) (dimensions : List String) (domain : List Nat)
    (tile_extents : Option (List Nat)) (tile_order : Int) (types : List Int)
    (hsm : c.storage_manager_ = true)
    (htypes : types.length = attributes.length + 1)
    (hcvn : ∀ l, cell_val_num = some l → l.length = attributes.length)
    (hcomp : ∀ l, compression = some l → l.length = attributes.length + 1) :
    tiledb_array_set_schema (some c) true true array_name attributes
      attributes.length capacity cell_order cell_val_num compression dense
      dimensions dimensions.length domain tile_extents tile_order types =
    (TILEDB_OK, some c, some {
      array_name_ := array_name, attributes_ := attributes,
      attribute_num_ := attributes.length, dimensions_ := dimensions,
      dim_num_ := dimensions.length, dense_ := dense, domain_ := domain,
      tile_extents_ := tile_extents, types_ := types,
      cell_val_num_ := cell_val_num, cell_order_ := cell_order,
      tile_order_ := tile_order, capacity_ := capacity,
      compressor_ := compression }) := by
  have hattr := range_map_getD attributes ""
  have hdim := range_map_getD dimensions ""
  have htys : (List.range (attributes.length + 1)).map (fun i => types.getD i 0)
      = types := by
    rw [← htypes]
    exact range_map_getD types 0
  have hc1 : cell_val_num.map
      (fun l => (List.range attributes.length).map (fun i => l.getD i 0))
      = cell_val_num := by
    cases cell_val_num with
    | none => rfl
    | some l =>
      rw [← hcvn l rfl]
      exact congrArg some (range_map_getD l 0)
  have hc2 : compression.map
      (fun l => (List.range (attributes.length + 1)).map (fun i => l.getD i 0))
      = compression := by
    cases compression with
    | none => rfl
    | some l =>
      rw [← hcomp l rfl]
      exact congrArg some (range_map_getD l 0)
  simp only [List.getD_eq_getElem?_getD] at hattr hdim htys hc1 hc2
  simp [tiledb_array_set_schema, hsm]
  exact ⟨hattr, hdim, htys, hc1, hc2⟩

/-- C10 witness: a concrete schema with one attribute, two dimensions, a
non-null cell-val-num and a null compressor is copied field for field. -/
theorem set_schema_copies_inputs_witness :
    tiledb_array_set_schema (some ctx0) true true "A" ["a"] 1 4 0
      (some [1]) none 1 ["x", "y"] 2 [0, 3, 0, 3] none 0 [0, 0] =
    (TILEDB_OK, some ctx0, some {
      array_name_ := "A", attributes_ := ["a"], attribute_num_ := 1,
      dimensions_ := ["x", "y"], dim_num_ := 2, dense_ := 1,
      domain_ := [0, 3, 0, 3], tile_extents_ := none, types_ := [0, 0],
      cell_val_num_ := some [1], cell_order_ := 0, tile_order_ := 0,
      capacity_ := 4, compressor_ := none }) :=
  set_schema_copies_inputs ctx0 "A" ["a"] 4 0 (some [1]) none 1 ["x", "y"]
    [0, 3, 0, 3] none 0 [0, 0] rfl rfl
    (fun l hl => by cases hl; rfl) (fun l hl => by cases hl)

end TileDB
